import Mathlib

/-!
Shallow embedding of `src/src/backend/server.js` (survey-security API,
Express + Mongoose).  JavaScript request-body values are modelled by `JSVal`
(truthiness, strict equality, and `.length` comparisons follow ECMAScript
semantics); JSON response bodies by `Json`; the Mongo-backed persistence
state by `ServerState` (two collections plus an id counter).  Each route
handler is a pure function from environment, state, body and clock to a
response and a successor state, translated line by line from the source.
-/

namespace SurveyServer

/-- A JSON-ish JavaScript value as it arrives in a parsed request body.
`vUndefined` stands for an absent field.  Numbers are modelled as `Int`
(no claim depends on non-integer or NaN arithmetic). -/
inductive JSVal where
  | vStr : String → JSVal
  | vNum : Int → JSVal
  | vBool : Bool → JSVal
  | vNull : JSVal
  | vUndefined : JSVal
  | vArr : List JSVal → JSVal
  | vObj : List (String × JSVal) → JSVal
  deriving Repr

namespace JSVal

/-- ECMAScript ToBoolean on the modelled values: `""`, `0`, `false`,
`null`, `undefined` are falsy; every object (arrays included) is truthy. -/
def truthy : JSVal → Bool
  | vStr s => !s.isEmpty
  | vNum n => n != 0
  | vBool b => b
  | vNull => false
  | vUndefined => false
  | vArr _ => true
  | vObj _ => true

/-- ECMAScript strict equality `===` restricted to the modelled values.
Arrays and objects compare by reference; two independently produced
references are distinct, and in this server one operand of every `===`
is a primitive (an environment string or `undefined`), so object
operands always compare unequal. -/
def strictEq : JSVal → JSVal → Bool
  | vStr s, vStr t => s == t
  | vNum a, vNum b => a == b
  | vBool a, vBool b => a == b
  | vNull, vNull => true
  | vUndefined, vUndefined => true
  | _, _ => false

/-- The JavaScript test `v.length < n` (ECMAScript: on a string or array,
`.length` is its length; on any other value `.length` is `undefined` and
`undefined < n` evaluates to `false` because the comparison with NaN
fails). -/
def lengthLt (v : JSVal) (n : Nat) : Bool :=
  match v with
  | vStr s => s.length < n
  | vArr l => l.length < n
  | _ => false

end JSVal

/-- A JSON value as produced in response bodies. -/
inductive Json where
  | str : String → Json
  | num : Int → Json
  | bool : Bool → Json
  | null : Json
  | arr : List Json → Json
  | obj : List (String × Json) → Json
  deriving Repr

/-- A response body: a JSON document, or a static file sent with
`res.sendFile` (production catch-all only). -/
inductive RespBody where
  | json : Json → RespBody
  | file : String → RespBody
  deriving Repr

/-- An HTTP response as written by a handler: status code plus body. -/
structure Response where
  status : Nat
  body : RespBody
  deriving Repr

/-- The environment-variable surface the handlers read
(`process.env.NODE_ENV`, `process.env.ADMIN_REGISTER_TOKEN`); an unset
variable is `none` (JavaScript `undefined`).  The two booleans model
`fs.existsSync` on `build/index.html` and `public/index.html`, consulted
only by the production catch-all. -/
structure Env where
  nodeEnv : Option String
  adminRegisterToken : Option String
  buildIndexExists : Bool
  publicIndexExists : Bool
  deriving Repr, DecidableEq

/-- `process.env.X` as a JavaScript value: a string when set, else
`undefined`. -/
def Env.tokenVal (env : Env) : JSVal :=
  match env.adminRegisterToken with
  | some s => JSVal.vStr s
  | none => JSVal.vUndefined

/-- `process.env.NODE_ENV === 'development'` — the per-handler error
verbosity test used throughout the source. -/
def Env.isDevelopment (env : Env) : Bool :=
  env.nodeEnv == some "development"

/-- `process.env.NODE_ENV === 'production'`. -/
def Env.isProduction (env : Env) : Bool :=
  env.nodeEnv == some "production"

/-- A stored `Respuesta` document: the schema's string paths after
casting, the two `timestamps: true` fields, and the persistence-assigned
identifier (modelled as a counter value rendered as a string). -/
structure SurveyRecord where
  id : Nat
  nombre : String
  puesto : String
  telefono : Option String
  fecha : Option String
  hora : Option String
  seguridadGeneral : String
  presenciaSerenazgo : String
  frecuenciaSerenazgo : Option String
  iluminacionGeneral : String
  zonasOscuras : List String
  camarasFuncionando : String
  ubicacionCamaras : Option String
  problemasEspecificos : List String
  incidentesReportados : Option String
  tiempoRespuesta : String
  capacitacionSeguridad : String
  sugerenciaMejora : Option String
  calificacionGeneral : String
  confianzaAdministracion : String
  participacionComerciantes : String
  comentariosAdicionales : Option String
  createdAt : Int
  updatedAt : Int
  deriving Repr, DecidableEq

/-- A stored `User` document (admin account). -/
structure UserRecord where
  id : Nat
  usuario : String
  email : String
  password : String
  fechaRegistro : Int
  deriving Repr, DecidableEq

/-- The persistence state: the two collections (`Respuesta` in insertion
order, `User`) and the counter from which new identifiers are drawn. -/
structure ServerState where
  surveys : List SurveyRecord
  users : List UserRecord
  nextId : Nat
  deriving Repr, DecidableEq

/-- `Date.prototype.toISOString()` on the modelled millisecond clock,
abstracted to an injective rendering (the exact calendar formatting is
irrelevant to every claim). -/
def isoString (t : Int) : String := toString t

/-- Mongoose `SchemaString.cast`: `null`/`undefined` stay absent,
strings pass through, numbers and booleans are cast via `toString`,
arrays and plain objects raise a `CastError` (which mongoose surfaces
inside the save-time `ValidationError`). -/
def castString : JSVal → Except Unit (Option String)
  | JSVal.vStr s => .ok (some s)
  | JSVal.vNum n => .ok (some (toString n))
  | JSVal.vBool b => .ok (some (toString b))
  | JSVal.vNull => .ok none
  | JSVal.vUndefined => .ok none
  | JSVal.vArr _ => .error ()
  | JSVal.vObj _ => .error ()

/-- Mongoose cast for a `[String]` path: absent becomes the default `[]`,
an array casts element-wise, and a castable scalar is wrapped into a
singleton array. -/
def castStringList : JSVal → Except Unit (List String)
  | JSVal.vNull => .ok []
  | JSVal.vUndefined => .ok []
  | JSVal.vArr l =>
      l.foldr (fun v acc =>
        match castString v, acc with
        | .ok (some s), .ok ss => .ok (s :: ss)
        | _, _ => .error ()) (.ok [])
  | v =>
      match castString v with
      | .ok (some s) => .ok [s]
      | _ => .error ()

/-- Outcome of checking one required string path at save time: mongoose's
`required` validator for `String` rejects absence and the empty string,
and a `CastError` on the path also fails validation. -/
def requiredString (v : JSVal) : Except Unit String :=
  match castString v with
  | .ok (some s) => if s.isEmpty then .error () else .ok s
  | _ => .error ()

/-- An optional string path: a cast failure is a validation error, absence
is fine. -/
def optionalString (v : JSVal) : Except Unit (Option String) := castString v

/-- A save-time failure of the persistence layer, as distinguished by the
catch blocks: a mongoose `ValidationError` carrying the offending paths
(in schema order), a MongoDB duplicate-key error (`err.code === 11000`)
carrying the first colliding indexed field, or any other error. -/
inductive SaveErr where
  | validation (fields : List String)
  | dupKey (field : String)
  | otherErr (name message : String)
  deriving Repr, DecidableEq

/-- `err.name` as read by the catch blocks. -/
def SaveErr.name : SaveErr → String
  | .validation _ => "ValidationError"
  | .dupKey _ => "MongoServerError"
  | .otherErr n _ => n

/-- `err.message` as read by the catch blocks (mongoose's default texts;
no claim depends on the exact wording). -/
def SaveErr.message : SaveErr → String
  | .validation _ => "Respuesta validation failed"
  | .dupKey f => "E11000 duplicate key error, index: " ++ f
  | .otherErr _ m => m

/-- Mongoose's per-path message inside a `ValidationError`
(`err.errors[key].message`; default `required` text). -/
def pathMessage (field : String) : String :=
  "Path `" ++ field ++ "` is required."

/-- A survey submission body as parsed JSON: every path of `surveySchema`
plus client-supplied `createdAt`/`updatedAt` (which, per the spec's
timestamp contract, the persistence layer ignores). An absent field is
`vUndefined`. -/
structure SurveyBody where
  nombre : JSVal := JSVal.vUndefined
  puesto : JSVal := JSVal.vUndefined
  telefono : JSVal := JSVal.vUndefined
  fecha : JSVal := JSVal.vUndefined
  hora : JSVal := JSVal.vUndefined
  seguridadGeneral : JSVal := JSVal.vUndefined
  presenciaSerenazgo : JSVal := JSVal.vUndefined
  frecuenciaSerenazgo : JSVal := JSVal.vUndefined
  iluminacionGeneral : JSVal := JSVal.vUndefined
  zonasOscuras : JSVal := JSVal.vUndefined
  camarasFuncionando : JSVal := JSVal.vUndefined
  ubicacionCamaras : JSVal := JSVal.vUndefined
  problemasEspecificos : JSVal := JSVal.vUndefined
  incidentesReportados : JSVal := JSVal.vUndefined
  tiempoRespuesta : JSVal := JSVal.vUndefined
  capacitacionSeguridad : JSVal := JSVal.vUndefined
  sugerenciaMejora : JSVal := JSVal.vUndefined
  calificacionGeneral : JSVal := JSVal.vUndefined
  confianzaAdministracion : JSVal := JSVal.vUndefined
  participacionComerciantes : JSVal := JSVal.vUndefined
  comentariosAdicionales : JSVal := JSVal.vUndefined
  createdAt : JSVal := JSVal.vUndefined
  updatedAt : JSVal := JSVal.vUndefined

/-- The paths of `surveySchema` that fail save-time validation for the
given body, in schema declaration order (`Object.keys(err.errors)`). -/
def surveyInvalidFields (b : SurveyBody) : List String :=
  (if (requiredString b.nombre).isOk then [] else ["nombre"]) ++
  (if (requiredString b.puesto).isOk then [] else ["puesto"]) ++
  (if (optionalString b.telefono).isOk then [] else ["telefono"]) ++
  (if (optionalString b.fecha).isOk then [] else ["fecha"]) ++
  (if (optionalString b.hora).isOk then [] else ["hora"]) ++
  (if (requiredString b.seguridadGeneral).isOk then [] else ["seguridadGeneral"]) ++
  (if (requiredString b.presenciaSerenazgo).isOk then [] else ["presenciaSerenazgo"]) ++
  (if (optionalString b.frecuenciaSerenazgo).isOk then [] else ["frecuenciaSerenazgo"]) ++
  (if (requiredString b.iluminacionGeneral).isOk then [] else ["iluminacionGeneral"]) ++
  (if (castStringList b.zonasOscuras).isOk then [] else ["zonasOscuras"]) ++
  (if (requiredString b.camarasFuncionando).isOk then [] else ["camarasFuncionando"]) ++
  (if (optionalString b.ubicacionCamaras).isOk then [] else ["ubicacionCamaras"]) ++
  (if (castStringList b.problemasEspecificos).isOk then [] else ["problemasEspecificos"]) ++
  (if (optionalString b.incidentesReportados).isOk then [] else ["incidentesReportados"]) ++
  (if (requiredString b.tiempoRespuesta).isOk then [] else ["tiempoRespuesta"]) ++
  (if (requiredString b.capacitacionSeguridad).isOk then [] else ["capacitacionSeguridad"]) ++
  (if (optionalString b.sugerenciaMejora).isOk then [] else ["sugerenciaMejora"]) ++
  (if (requiredString b.calificacionGeneral).isOk then [] else ["calificacionGeneral"]) ++
  (if (requiredString b.confianzaAdministracion).isOk then [] else ["confianzaAdministracion"]) ++
  (if (requiredString b.participacionComerciantes).isOk then [] else ["participacionComerciantes"]) ++
  (if (optionalString b.comentariosAdicionales).isOk then [] else ["comentariosAdicionales"])

/-- `new Respuesta(req.body)` followed by `save()` on a valid body: the
document the store persists.  The two timestamps are NOT taken from the
body.  Modelled from the spec: the `timestamps: true` plugin is mongoose
library code not present in this repository; the spec states the
timestamps are "assigned at persistence time and never mutated by
clients", so both are set from the server clock here and the body's
`createdAt`/`updatedAt` fields are ignored. -/
def buildSurvey (b : SurveyBody) (id : Nat) (now : Int) : SurveyRecord where
  id := id
  nombre := ((requiredString b.nombre).toOption).getD ""
  puesto := ((requiredString b.puesto).toOption).getD ""
  telefono := ((optionalString b.telefono).toOption).getD none
  fecha := ((optionalString b.fecha).toOption).getD none
  hora := ((optionalString b.hora).toOption).getD none
  seguridadGeneral := ((requiredString b.seguridadGeneral).toOption).getD ""
  presenciaSerenazgo := ((requiredString b.presenciaSerenazgo).toOption).getD ""
  frecuenciaSerenazgo := ((optionalString b.frecuenciaSerenazgo).toOption).getD none
  iluminacionGeneral := ((requiredString b.iluminacionGeneral).toOption).getD ""
  zonasOscuras := ((castStringList b.zonasOscuras).toOption).getD []
  camarasFuncionando := ((requiredString b.camarasFuncionando).toOption).getD ""
  ubicacionCamaras := ((optionalString b.ubicacionCamaras).toOption).getD none
  problemasEspecificos := ((castStringList b.problemasEspecificos).toOption).getD []
  incidentesReportados := ((optionalString b.incidentesReportados).toOption).getD none
  tiempoRespuesta := ((requiredString b.tiempoRespuesta).toOption).getD ""
  capacitacionSeguridad := ((requiredString b.capacitacionSeguridad).toOption).getD ""
  sugerenciaMejora := ((optionalString b.sugerenciaMejora).toOption).getD none
  calificacionGeneral := ((requiredString b.calificacionGeneral).toOption).getD ""
  confianzaAdministracion := ((requiredString b.confianzaAdministracion).toOption).getD ""
  participacionComerciantes := ((requiredString b.participacionComerciantes).toOption).getD ""
  comentariosAdicionales := ((optionalString b.comentariosAdicionales).toOption).getD none
  createdAt := now
  updatedAt := now

/-- `nuevaRespuesta.save()`: validation first (mongoose validates before
the insert); on success the persisted document. -/
def saveSurvey (b : SurveyBody) (id : Nat) (now : Int) :
    Except SaveErr SurveyRecord :=
  match surveyInvalidFields b with
  | [] => .ok (buildSurvey b id now)
  | fs => .error (SaveErr.validation fs)

/-- The flat 400 written before any persistence call when `nombre` or
`puesto` is falsy. -/
def preValidationResp : Response :=
  ⟨400, .json (.obj [("error", .str "Nombre y puesto son campos obligatorios")])⟩

/-- The catch block of `POST /api/respuestas`: `ValidationError` → 400
with a per-field `details` list; everything else → 500 carrying
`err.message` and `err.name` (this catch does not consult `NODE_ENV`). -/
def respuestasCatch (err : SaveErr) : Response :=
  match err with
  | SaveErr.validation fields =>
      ⟨400, .json (.obj [
        ("error", .str "Error de validación"),
        ("details", .arr (fields.map fun f =>
          .obj [("field", .str f), ("message", .str (pathMessage f))]))])⟩
  | e =>
      ⟨500, .json (.obj [
        ("error", .str "Error al guardar la respuesta"),
        ("details", .str e.message),
        ("errorName", .str e.name)])⟩

/-- `POST /api/respuestas`: pre-validate `nombre`/`puesto` truthiness,
then construct and save the document; 201 with the generated id on
success, the catch mapping otherwise. -/
def postRespuestas (st : ServerState) (b : SurveyBody) (now : Int) :
    Response × ServerState :=
  if !b.nombre.truthy || !b.puesto.truthy then
    (preValidationResp, st)
  else
    match saveSurvey b st.nextId now with
    | .ok r =>
        (⟨201, .json (.obj [
          ("mensaje", .str "Respuesta guardada correctamente"),
          ("id", .str (toString r.id))])⟩,
         { st with surveys := st.surveys ++ [r], nextId := st.nextId + 1 })
    | .error e => (respuestasCatch e, st)

/-- Insertion step for `.sort({ createdAt: -1 })`. -/
def insertByCreatedDesc (r : SurveyRecord) :
    List SurveyRecord → List SurveyRecord
  | [] => [r]
  | x :: xs =>
      if x.createdAt < r.createdAt then r :: x :: xs
      else x :: insertByCreatedDesc r xs

/-- `Respuesta.find({}).sort({ createdAt: -1 })`: newest first. -/
def sortByCreatedDesc (l : List SurveyRecord) : List SurveyRecord :=
  l.foldr insertByCreatedDesc []

/-- JSON serialisation of a stored survey document. -/
def surveyToJson (r : SurveyRecord) : Json :=
  .obj [
    ("_id", .str (toString r.id)),
    ("nombre", .str r.nombre),
    ("puesto", .str r.puesto),
    ("telefono", (r.telefono.map Json.str).getD .null),
    ("fecha", (r.fecha.map Json.str).getD .null),
    ("hora", (r.hora.map Json.str).getD .null),
    ("seguridadGeneral", .str r.seguridadGeneral),
    ("presenciaSerenazgo", .str r.presenciaSerenazgo),
    ("frecuenciaSerenazgo", (r.frecuenciaSerenazgo.map Json.str).getD .null),
    ("iluminacionGeneral", .str r.iluminacionGeneral),
    ("zonasOscuras", .arr (r.zonasOscuras.map Json.str)),
    ("camarasFuncionando", .str r.camarasFuncionando),
    ("ubicacionCamaras", (r.ubicacionCamaras.map Json.str).getD .null),
    ("problemasEspecificos", .arr (r.problemasEspecificos.map Json.str)),
    ("incidentesReportados", (r.incidentesReportados.map Json.str).getD .null),
    ("tiempoRespuesta", .str r.tiempoRespuesta),
    ("capacitacionSeguridad", .str r.capacitacionSeguridad),
    ("sugerenciaMejora", (r.sugerenciaMejora.map Json.str).getD .null),
    ("calificacionGeneral", .str r.calificacionGeneral),
    ("confianzaAdministracion", .str r.confianzaAdministracion),
    ("participacionComerciantes", .str r.participacionComerciantes),
    ("comentariosAdicionales", (r.comentariosAdicionales.map Json.str).getD .null),
    ("createdAt", .str (isoString r.createdAt)),
    ("updatedAt", .str (isoString r.updatedAt))]

/-- `GET /api/respuestas`: all documents, newest first, always 200 (the
catch is unreachable in the pure model — the find cannot fail). -/
def getRespuestas (st : ServerState) : Response :=
  ⟨200, .json (.arr ((sortByCreatedDesc st.surveys).map surveyToJson))⟩

/-- The trailing-window length used by the statistics query:
`7 * 24 * 60 * 60 * 1000` milliseconds. -/
def sevenDaysMs : Int := 7 * 24 * 60 * 60 * 1000

/-- `GET /api/estadisticas`: total count, count of documents with
`createdAt: { $gte: new Date(Date.now() - 7*24*60*60*1000) }`, and the
current timestamp; always 200. -/
def getEstadisticas (st : ServerState) (now : Int) : Response :=
  ⟨200, .json (.obj [
    ("total", .num st.surveys.length),
    ("ultimaSemana", .num
      (st.surveys.filter (fun r => now - sevenDaysMs ≤ r.createdAt)).length),
    ("timestamp", .str (isoString now))])⟩

/-- The generic 500 used by the catch blocks of the list, statistics,
delete and register handlers: the raw `err.message` is included only when
`NODE_ENV === 'development'`. -/
def devGatedCatch (env : Env) (label : String) (err : SaveErr) : Response :=
  ⟨500, .json (.obj [
    ("error", .str label),
    ("details", .str
      (if env.isDevelopment then err.message else "Error interno del servidor"))])⟩

/-- `POST /api/login`: presence check, `User.findOne({ usuario })`,
strict-equality password comparison; absent user and wrong password share
one 401 response. -/
def postLogin (st : ServerState) (usuario password : JSVal) : Response :=
  if !usuario.truthy || !password.truthy then
    ⟨400, .json (.obj [("mensaje", .str "Usuario y contraseña son obligatorios")])⟩
  else
    let q := ((castString usuario).toOption.getD none).getD ""
    match st.users.find? (fun u => u.usuario == q) with
    | none =>
        ⟨401, .json (.obj [("mensaje", .str "Credenciales incorrectas")])⟩
    | some u =>
        if !(JSVal.strictEq (JSVal.vStr u.password) password) then
          ⟨401, .json (.obj [("mensaje", .str "Credenciales incorrectas")])⟩
        else
          ⟨200, .json (.obj [
            ("mensaje", .str "Login exitoso"),
            ("user", .obj [
              ("usuario", .str u.usuario),
              ("email", .str u.email),
              ("fechaRegistro", .str (isoString u.fechaRegistro))])])⟩

/-- A register request body (`{ token, usuario, email, password }`). -/
structure RegisterBody where
  token : JSVal := JSVal.vUndefined
  usuario : JSVal := JSVal.vUndefined
  email : JSVal := JSVal.vUndefined
  password : JSVal := JSVal.vUndefined

/-- The `userSchema` paths failing save-time validation, in schema
order. -/
def userInvalidFields (b : RegisterBody) : List String :=
  (if (requiredString b.usuario).isOk then [] else ["usuario"]) ++
  (if (requiredString b.email).isOk then [] else ["email"]) ++
  (if (requiredString b.password).isOk then [] else ["password"])

/-- `new User({usuario, email, password}).save()`: mongoose validation
first, then the store's unique-index check on `usuario` and `email`;
`fechaRegistro` defaults to the save-time clock. -/
def saveUser (st : ServerState) (b : RegisterBody) (now : Int) :
    Except SaveErr UserRecord :=
  match userInvalidFields b with
  | [] =>
      let u := ((requiredString b.usuario).toOption).getD ""
      let e := ((requiredString b.email).toOption).getD ""
      let p := ((requiredString b.password).toOption).getD ""
      if st.users.any (fun x => x.usuario == u) then
        .error (SaveErr.dupKey "usuario")
      else if st.users.any (fun x => x.email == e) then
        .error (SaveErr.dupKey "email")
      else
        .ok ⟨st.nextId, u, e, p, now⟩
  | fs => .error (SaveErr.validation fs)

/-- The catch block of `POST /api/register`: `err.code === 11000` → 409
naming the colliding field; every other error (a `ValidationError`
included — this catch has no branch for it) → the development-gated
500. -/
def registerCatch (env : Env) (err : SaveErr) : Response :=
  match err with
  | SaveErr.dupKey f =>
      ⟨409, .json (.obj [("mensaje",
        .str ((if f == "usuario" then "Usuario" else "Email") ++ " ya existe"))])⟩
  | e => devGatedCatch env "Error al registrar administrador" e

/-- `POST /api/register`: authorization-token check, presence check,
password-length check, username-length check — in that order — then the
save. -/
def postRegister (env : Env) (st : ServerState) (b : RegisterBody)
    (now : Int) : Response × ServerState :=
  if !(JSVal.strictEq b.token env.tokenVal) then
    (⟨403, .json (.obj [("mensaje", .str "Token de autorización inválido")])⟩, st)
  else if !b.usuario.truthy || !b.email.truthy || !b.password.truthy then
    (⟨400, .json (.obj [("mensaje", .str "Todos los campos son obligatorios")])⟩, st)
  else if JSVal.lengthLt b.password 8 then
    (⟨400, .json (.obj [("mensaje",
      .str "La contraseña debe tener al menos 8 caracteres")])⟩, st)
  else if JSVal.lengthLt b.usuario 4 then
    (⟨400, .json (.obj [("mensaje",
      .str "El usuario debe tener al menos 4 caracteres")])⟩, st)
  else
    match saveUser st b now with
    | .ok u =>
        (⟨201, .json (.obj [("mensaje", .str "Administrador registrado exitosamente")])⟩,
         { st with users := st.users ++ [u], nextId := st.nextId + 1 })
    | .error e => (registerCatch env e, st)

/-- `DELETE /api/respuestas/:id` (`findByIdAndDelete`): 404 when no
document has the id, else remove it and answer 200. -/
def deleteRespuesta (st : ServerState) (id : String) :
    Response × ServerState :=
  if st.surveys.any (fun r => toString r.id == id) then
    (⟨200, .json (.obj [("mensaje", .str "Respuesta eliminada correctamente")])⟩,
     { st with surveys := st.surveys.filter (fun r => toString r.id != id) })
  else
    (⟨404, .json (.obj [("mensaje", .str "Respuesta no encontrada")])⟩, st)

/-- `DELETE /api/respuestas` (`deleteMany({})`): empty the collection and
echo `result.deletedCount` inside the message. -/
def deleteAllRespuestas (st : ServerState) : Response × ServerState :=
  (⟨200, .json (.obj [("mensaje",
    .str (toString st.surveys.length ++ " respuestas eliminadas correctamente"))])⟩,
   { st with surveys := [] })

/-- An HTTP method. -/
inductive Method where
  | get | post | put | patch | delete | options | head
  deriving Repr, DecidableEq

/-- The handler a request is dispatched to.  Express tries the routes in
registration order; the targets below mirror the registration order of
`server.js`. -/
inductive RouteTarget where
  | health
  | submitSurvey
  | listSurveys
  | stats
  | login
  | register
  | deleteOne (id : String)
  | deleteAll
  | catchAllGet
  | apiNotFound
  | unmatched
  deriving Repr, DecidableEq

/-- Character-list prefix test (kernel-computable route matching). -/
def strHasPrefix (pre p : String) : Bool :=
  p.toList.take pre.toList.length == pre.toList

/-- The `:id` capture of `DELETE /api/respuestas/:id`: exactly one
non-empty further path segment. -/
def deleteOneParam (p : String) : Option String :=
  if strHasPrefix "/api/respuestas/" p then
    let id := p.toList.drop "/api/respuestas/".toList.length
    if !id.isEmpty && !(id.contains '/') then some (String.mk id) else none
  else none

/-- The mount test of `app.use('/api/*', ...)`. -/
def apiStarMatch (p : String) : Bool := strHasPrefix "/api/" p

/-- Express dispatch over the routes of `server.js`, in their registration
order.  `app.get('*', ...)` is registered (with different bodies) in both
the production and the development branch, and in BOTH cases it precedes
the `app.use('/api/*')` 404 handler — so a GET request can never reach
`apiNotFound`. -/
def routeOf (m : Method) (p : String) : RouteTarget :=
  if m == .get && p == "/api/health" then .health
  else if m == .post && p == "/api/respuestas" then .submitSurvey
  else if m == .get && p == "/api/respuestas" then .listSurveys
  else if m == .get && p == "/api/estadisticas" then .stats
  else if m == .post && p == "/api/login" then .login
  else if m == .post && p == "/api/register" then .register
  else if m == .delete && (deleteOneParam p).isSome then
    .deleteOne ((deleteOneParam p).getD "")
  else if m == .delete && p == "/api/respuestas" then .deleteAll
  else if m == .get then .catchAllGet
  else if apiStarMatch p then .apiNotFound
  else .unmatched

/-- The endpoint listing returned by the catch-all when no frontend is
available. -/
def endpointListing : Json :=
  .arr [.str "GET /api/health", .str "GET /api/respuestas",
        .str "POST /api/respuestas", .str "POST /api/login",
        .str "POST /api/register"]

/-- The `app.get('*', ...)` catch-all: in production it serves the built
frontend (or, lacking one, a 200 API notice); in any other mode it
answers 200 with the development notice.  It never answers 404. -/
def catchAllGetResp (env : Env) : Response :=
  if env.isProduction then
    if env.buildIndexExists then ⟨200, .file "build/index.html"⟩
    else if env.publicIndexExists then ⟨200, .file "public/index.html"⟩
    else
      ⟨200, .json (.obj [
        ("message", .str "🚀 API funcionando correctamente"),
        ("note", .str "Esta es una API backend. Frontend no configurado."),
        ("availableEndpoints", endpointListing)])⟩
  else
    ⟨200, .json (.obj [
      ("message", .str "🚀 API en modo desarrollo"),
      ("availableEndpoints", endpointListing)])⟩

/-- The `app.use('/api/*')` handler: 404 echoing `req.originalUrl`. -/
def apiNotFoundResp (p : String) : Response :=
  ⟨404, .json (.obj [("error", .str "Ruta no encontrada"), ("path", .str p)])⟩

/-- An error object reaching the global error middleware. -/
structure JsError where
  name : String
  message : String
  deriving Repr, DecidableEq

/-- The global error-handling middleware of `server.js`: a 500 whose
`details` field carries `err.message` unconditionally (the source
comments "Temporalmente mostrar siempre el error para debugging") — it
does not consult `NODE_ENV`. -/
def globalErrorHandler (err : JsError) (p : String) (now : Int) : Response :=
  ⟨500, .json (.obj [
    ("error", .str "Error interno del servidor"),
    ("details", .str err.message),
    ("timestamp", .str (isoString now)),
    ("path", .str p)])⟩

/-- A development-mode environment with the registration secret set to
`"secreto"`; used by concrete witnesses. -/
def devEnv : Env := ⟨some "development", some "secreto", false, false⟩

/-- The empty persistence state. -/
def emptyState : ServerState := ⟨[], [], 0⟩

/-- A submission body carrying exactly the required survey fields
(the spec's §8 concrete scenario). -/
def sampleBody : SurveyBody where
  nombre := JSVal.vStr "Ana"
  puesto := JSVal.vStr "Vendedora"
  seguridadGeneral := JSVal.vStr "Buena"
  presenciaSerenazgo := JSVal.vStr "Sí"
  iluminacionGeneral := JSVal.vStr "Buena"
  camarasFuncionando := JSVal.vStr "Sí"
  tiempoRespuesta := JSVal.vStr "Rápido"
  capacitacionSeguridad := JSVal.vStr "Sí"
  calificacionGeneral := JSVal.vStr "Buena"
  confianzaAdministracion := JSVal.vStr "Alta"
  participacionComerciantes := JSVal.vStr "Alta"

/-- A stored survey document with a given id and creation clock; used by
concrete witnesses. -/
def sampleSurvey (id : Nat) (t : Int) : SurveyRecord :=
  buildSurvey sampleBody id t

/-- Whether some defined endpoint of the route table matches the
request (the eight routes registered before the catch-all). -/
def matchesSomeEndpoint (m : Method) (p : String) : Bool :=
  (m == .get && p == "/api/health") ||
  (m == .post && p == "/api/respuestas") ||
  (m == .get && p == "/api/respuestas") ||
  (m == .get && p == "/api/estadisticas") ||
  (m == .post && p == "/api/login") ||
  (m == .post && p == "/api/register") ||
  (m == .delete && (deleteOneParam p).isSome) ||
  (m == .delete && p == "/api/respuestas")

end SurveyServer

namespace SurveyServer

/-- C1: on `POST /api/register` the checks run in this exact order —
authorization token (403, nothing created), presence of
usuario/email/password (400), password length ≥ 8 (400), username
length ≥ 4 (400) — and a 201 is possible only when every check passed,
in which case exactly the new admin is appended. -/
theorem register_check_order (env : Env) (st : ServerState)
    (b : RegisterBody) (now : Int) :
    (JSVal.strictEq b.token env.tokenVal = false →
      postRegister env st b now =
        (⟨403, .json (.obj [("mensaje", .str "Token de autorización inválido")])⟩, st)) ∧
    (JSVal.strictEq b.token env.tokenVal = true →
      (b.usuario.truthy = false ∨ b.email.truthy = false ∨
        b.password.truthy = false) →
      postRegister env st b now =
        (⟨400, .json (.obj [("mensaje", .str "Todos los campos son obligatorios")])⟩, st)) ∧
    (JSVal.strictEq b.token env.tokenVal = true →
      b.usuario.truthy = true → b.email.truthy = true →
      b.password.truthy = true → JSVal.lengthLt b.password 8 = true →
      postRegister env st b now =
        (⟨400, .json (.obj [("mensaje",
          .str "La contraseña debe tener al menos 8 caracteres")])⟩, st)) ∧
    (JSVal.strictEq b.token env.tokenVal = true →
      b.usuario.truthy = true → b.email.truthy = true →
      b.password.truthy = true → JSVal.lengthLt b.password 8 = false →
      JSVal.lengthLt b.usuario 4 = true →
      postRegister env st b now =
        (⟨400, .json (.obj [("mensaje",
          .str "El usuario debe tener al menos 4 caracteres")])⟩, st)) ∧
    ((postRegister env st b now).1.status = 201 →
      JSVal.strictEq b.token env.tokenVal = true ∧
      b.usuario.truthy = true ∧ b.email.truthy = true ∧
      b.password.truthy = true ∧ JSVal.lengthLt b.password 8 = false ∧
      JSVal.lengthLt b.usuario 4 = false ∧
      ∃ u, saveUser st b now = .ok u ∧
        (postRegister env st b now).2 =
          { st with users := st.users ++ [u], nextId := st.nextId + 1 }) := by
  refine ⟨?_, ?_, ?_, ?_, ?_⟩
  · intro h
    simp [postRegister, h]
  · intro h hmiss
    rcases hmiss with hm | hm | hm <;> simp [postRegister, h, hm]
  · intro h hu he hp hlen
    simp [postRegister, h, hu, he, hp, hlen]
  · intro h hu he hp hlen hulen
    simp [postRegister, h, hu, he, hp, hlen, hulen]
  · intro h201
    by_cases htok : JSVal.strictEq b.token env.tokenVal = true
    case neg =>
      simp [postRegister, Bool.not_eq_true _ |>.mp htok] at h201
    by_cases hu : b.usuario.truthy = true
    case neg =>
      simp [postRegister, htok, Bool.not_eq_true _ |>.mp hu] at h201
    by_cases he : b.email.truthy = true
    case neg =>
      simp [postRegister, htok, hu, Bool.not_eq_true _ |>.mp he] at h201
    by_cases hp : b.password.truthy = true
    case neg =>
      simp [postRegister, htok, hu, he, Bool.not_eq_true _ |>.mp hp] at h201
    by_cases hlen : JSVal.lengthLt b.password 8 = true
    case pos =>
      simp [postRegister, htok, hu, he, hp, hlen] at h201
    by_cases hulen : JSVal.lengthLt b.usuario 4 = true
    case pos =>
      simp [postRegister, htok, hu, he, hp,
        Bool.not_eq_true _ |>.mp hlen, hulen] at h201
    have hlen' := Bool.not_eq_true _ |>.mp hlen
    have hulen' := Bool.not_eq_true _ |>.mp hulen
    refine ⟨htok, hu, he, hp, hlen', hulen', ?_⟩
    cases hsave : saveUser st b now with
    | ok u =>
        exact ⟨u, rfl,
          by simp [postRegister, htok, hu, he, hp, hlen', hulen', hsave]⟩
    | error e =>
        exfalso
        have hres : (postRegister env st b now).1 = registerCatch env e := by
          simp [postRegister, htok, hu, he, hp, hlen', hulen', hsave]
        rw [hres] at h201
        cases e <;> simp [registerCatch, devGatedCatch] at h201

/-- Witness for C1: a concrete request with a wrong secret but otherwise
valid fields is refused with 403 and nothing is created. -/
theorem register_check_order_witness :
    JSVal.strictEq (JSVal.vStr "wrong") devEnv.tokenVal = false ∧
    postRegister devEnv emptyState
      { token := JSVal.vStr "wrong", usuario := JSVal.vStr "admin1",
        email := JSVal.vStr "a@b.c", password := JSVal.vStr "password123" } 0 =
      (⟨403, .json (.obj [("mensaje", .str "Token de autorización inválido")])⟩,
        emptyState) :=
  ⟨by decide, (register_check_order devEnv emptyState _ 0).1 (by decide)⟩

/-- C10: with a valid secret and all three fields truthy, a non-string
password (here a large number) bypasses the minimum-length rule — its
`.length` is `undefined`, so `length < 8` evaluates to `false` — and the
request proceeds to persistence (201, the cast string is stored); the
same bypass applies to a non-string `usuario` and the 4-character
rule. -/
theorem register_length_bypass_nonstring :
    JSVal.lengthLt (JSVal.vNum 123456789) 8 = false ∧
    postRegister devEnv emptyState
      { token := JSVal.vStr "secreto", usuario := JSVal.vStr "admin1",
        email := JSVal.vStr "a@b.c", password := JSVal.vNum 123456789 } 7 =
      (⟨201, .json (.obj [("mensaje", .str "Administrador registrado exitosamente")])⟩,
        ⟨[], [⟨0, "admin1", "a@b.c", "123456789", 7⟩], 1⟩) ∧
    JSVal.lengthLt (JSVal.vNum 99) 4 = false ∧
    postRegister devEnv emptyState
      { token := JSVal.vStr "secreto", usuario := JSVal.vNum 99,
        email := JSVal.vStr "a@b.c", password := JSVal.vStr "password123" } 7 =
      (⟨201, .json (.obj [("mensaje", .str "Administrador registrado exitosamente")])⟩,
        ⟨[], [⟨0, "99", "a@b.c", "password123", 7⟩], 1⟩) :=
  ⟨rfl, rfl, rfl, rfl⟩

/-- C2: a submission whose `nombre` or `puesto` is falsy (absent or empty
string) is answered with the flat 400 and the stored collection is left
unchanged; when both are truthy this pre-validation layer checks nothing
else — the request reaches the save, and no outcome of the save path
equals the flat pre-validation 400. -/
theorem submit_requires_nombre_puesto (st : ServerState) (b : SurveyBody)
    (now : Int) :
    (b.nombre.truthy = false ∨ b.puesto.truthy = false →
      postRespuestas st b now = (preValidationResp, st)) ∧
    (b.nombre.truthy = true → b.puesto.truthy = true →
      (∃ r, saveSurvey b st.nextId now = .ok r ∧
        postRespuestas st b now =
          (⟨201, .json (.obj [
            ("mensaje", .str "Respuesta guardada correctamente"),
            ("id", .str (toString r.id))])⟩,
           { st with surveys := st.surveys ++ [r], nextId := st.nextId + 1 })) ∨
      (∃ e, saveSurvey b st.nextId now = .error e ∧
        postRespuestas st b now = (respuestasCatch e, st))) ∧
    (b.nombre.truthy = true → b.puesto.truthy = true →
      (postRespuestas st b now).1 ≠ preValidationResp) := by
  refine ⟨?_, ?_, ?_⟩
  · intro h
    rcases h with h | h <;> simp [postRespuestas, h]
  · intro hn hp
    cases hsave : saveSurvey b st.nextId now with
    | ok r => exact Or.inl ⟨r, rfl, by simp [postRespuestas, hn, hp, hsave]⟩
    | error e => exact Or.inr ⟨e, rfl, by simp [postRespuestas, hn, hp, hsave]⟩
  · intro hn hp
    cases hsave : saveSurvey b st.nextId now with
    | ok r =>
        simp [postRespuestas, hn, hp, hsave, preValidationResp]
    | error e =>
        have hres : (postRespuestas st b now).1 = respuestasCatch e := by
          simp [postRespuestas, hn, hp, hsave]
        rw [hres]
        cases e <;> simp [respuestasCatch, preValidationResp]

/-- Witness for C2: an otherwise complete body whose `nombre` is the
empty string is refused with the flat 400, leaving the state unchanged;
with `nombre` present the same body is accepted. -/
theorem submit_requires_nombre_puesto_witness :
    postRespuestas emptyState { sampleBody with nombre := JSVal.vStr "" } 5 =
      (preValidationResp, emptyState) ∧
    (postRespuestas emptyState sampleBody 5).1 ≠ preValidationResp :=
  ⟨(submit_requires_nombre_puesto emptyState _ 5).1 (Or.inl rfl),
   (submit_requires_nombre_puesto emptyState sampleBody 5).2.2 rfl rfl⟩

/-- C3: a login for a username with no account and a login for an
existing username with a wrong password receive one and the same
response — 401 with the generic invalid-credentials body — so the
response does not reveal which of the two happened. -/
theorem login_indistinguishable (st : ServerState) (u1 p1 u2 p2 : String)
    (hu1 : u1.isEmpty = false) (hp1 : p1.isEmpty = false)
    (hu2 : u2.isEmpty = false) (hp2 : p2.isEmpty = false)
    (habsent : st.users.find? (fun u => u.usuario == u1) = none)
    (rec : UserRecord)
    (hfound : st.users.find? (fun u => u.usuario == u2) = some rec)
    (hwrong : (rec.password == p2) = false) :
    postLogin st (JSVal.vStr u1) (JSVal.vStr p1) =
      postLogin st (JSVal.vStr u2) (JSVal.vStr p2) ∧
    postLogin st (JSVal.vStr u1) (JSVal.vStr p1) =
      ⟨401, .json (.obj [("mensaje", .str "Credenciales incorrectas")])⟩ := by
  have hwrong' : rec.password ≠ p2 := by simpa using hwrong
  have e1 : postLogin st (JSVal.vStr u1) (JSVal.vStr p1) =
      ⟨401, .json (.obj [("mensaje", .str "Credenciales incorrectas")])⟩ := by
    simp [postLogin, JSVal.truthy, hu1, hp1, castString, Except.toOption,
      habsent]
  have e2 : postLogin st (JSVal.vStr u2) (JSVal.vStr p2) =
      ⟨401, .json (.obj [("mensaje", .str "Credenciales incorrectas")])⟩ := by
    simp [postLogin, JSVal.truthy, hu2, hp2, castString, Except.toOption,
      hfound, JSVal.strictEq, hwrong']
  exact ⟨e1.trans e2.symm, e1⟩

/-- Witness for C3: against a store holding one admin `admin1`, the
responses to `ghost`/`whatever` and to `admin1`/wrong password
coincide. -/
theorem login_indistinguishable_witness :
    postLogin ⟨[], [⟨0, "admin1", "a@b.c", "password123", 0⟩], 1⟩
        (JSVal.vStr "ghost") (JSVal.vStr "whatever") =
      postLogin ⟨[], [⟨0, "admin1", "a@b.c", "password123", 0⟩], 1⟩
        (JSVal.vStr "admin1") (JSVal.vStr "wrongpass") ∧
    postLogin ⟨[], [⟨0, "admin1", "a@b.c", "password123", 0⟩], 1⟩
        (JSVal.vStr "ghost") (JSVal.vStr "whatever") =
      ⟨401, .json (.obj [("mensaje", .str "Credenciales incorrectas")])⟩ :=
  login_indistinguishable ⟨[], [⟨0, "admin1", "a@b.c", "password123", 0⟩], 1⟩
    "ghost" "whatever" "admin1" "wrongpass" rfl rfl rfl rfl rfl
    ⟨0, "admin1", "a@b.c", "password123", 0⟩ rfl rfl

/-- Counterexample to C4 as stated: `GET /api/nonexistent` lies under the
API prefix and matches no defined endpoint, yet it is dispatched to the
`app.get('*')` catch-all — registered before the `/api/*` 404 handler —
and receives a 200, not a 404 echoing the path. -/
theorem api_unmatched_get_counterexample :
    matchesSomeEndpoint .get "/api/nonexistent" = false ∧
    apiStarMatch "/api/nonexistent" = true ∧
    routeOf .get "/api/nonexistent" = .catchAllGet ∧
    (catchAllGetResp ⟨none, none, false, false⟩).status = 200 ∧
    (catchAllGetResp ⟨none, none, false, false⟩).status ≠ 404 := by
  refine ⟨by decide, by decide, by decide, rfl, by decide⟩

/-- C4 amended: an API-prefixed request that matches no defined endpoint
receives the 404 echoing its path exactly when its method is not GET; an
unmatched GET under the prefix is intercepted by the catch-all
(registered first) and gets its 200/static response instead. -/
theorem api_unmatched_dispatch (m : Method) (p : String)
    (hnm : matchesSomeEndpoint m p = false)
    (hapi : apiStarMatch p = true) :
    (m ≠ .get → routeOf m p = .apiNotFound ∧
      apiNotFoundResp p = ⟨404, .json (.obj [
        ("error", .str "Ruta no encontrada"), ("path", .str p)])⟩) ∧
    (m = .get → routeOf m p = .catchAllGet ∧
      ∀ env, (catchAllGetResp env).status = 200) := by
  simp only [matchesSomeEndpoint, Bool.or_eq_false_iff] at hnm
  obtain ⟨⟨⟨⟨⟨⟨⟨h1, h2⟩, h3⟩, h4⟩, h5⟩, h6⟩, h7⟩, h8⟩ := hnm
  have hstatus : ∀ env : Env, (catchAllGetResp env).status = 200 := by
    intro env
    by_cases hm : env.isProduction = true
    · by_cases hb : env.buildIndexExists = true
      · simp [catchAllGetResp, hm, hb]
      · by_cases hq : env.publicIndexExists = true
        · simp [catchAllGetResp, hm, hb, hq]
        · simp [catchAllGetResp, hm, hb, hq]
    · simp [catchAllGetResp, hm]
  constructor
  · intro hne
    have hg : (m == .get) = false := beq_eq_false_iff_ne.mpr hne
    exact ⟨by simp [routeOf, h1, h2, h3, h4, h5, h6, h7, h8, hg, hapi],
      rfl⟩
  · intro he
    subst he
    have n1 : p ≠ "/api/health" := by simpa using h1
    have n3 : p ≠ "/api/respuestas" := by simpa using h3
    have n4 : p ≠ "/api/estadisticas" := by simpa using h4
    exact ⟨by simp [routeOf, n1, n3, n4], hstatus⟩

/-- Witness for the amended C4: `POST /api/nope` reaches the API 404
handler and the path is echoed. -/
theorem api_unmatched_dispatch_witness :
    routeOf .post "/api/nope" = .apiNotFound ∧
    apiNotFoundResp "/api/nope" = ⟨404, .json (.obj [
      ("error", .str "Ruta no encontrada"), ("path", .str "/api/nope")])⟩ :=
  (api_unmatched_dispatch .post "/api/nope" (by decide) (by decide)).1
    (by decide)

/-- Counterexample to C5 as stated: a register request that passes every
pre-check but whose `email` is a truthy non-castable value fails
persistence-schema validation, and the register catch — having no
`ValidationError` branch — answers 500, not the claimed 400 with
per-field messages. -/
theorem register_validation_500_counterexample :
    saveUser emptyState
      { token := JSVal.vStr "secreto", usuario := JSVal.vStr "admin1",
        email := JSVal.vObj [], password := JSVal.vStr "password123" } 0 =
      .error (SaveErr.validation ["email"]) ∧
    (postRegister devEnv emptyState
      { token := JSVal.vStr "secreto", usuario := JSVal.vStr "admin1",
        email := JSVal.vObj [], password := JSVal.vStr "password123" } 0).1.status
      = 500 ∧
    (postRegister devEnv emptyState
      { token := JSVal.vStr "secreto", usuario := JSVal.vStr "admin1",
        email := JSVal.vObj [], password := JSVal.vStr "password123" } 0).1.status
      ≠ 400 :=
  ⟨rfl, rfl, by decide⟩

/-- C5 amended: the failure mapping is per-handler, not uniform.  The
submit catch maps schema-validation failures to 400 with a per-field
list and every other caught failure (a duplicate key included) to 500;
the register catch maps duplicate-key failures to 409 naming the field
and every other caught failure — schema-validation failures included —
to 500. -/
theorem catch_mapping_per_handler :
    (∀ fs, respuestasCatch (SaveErr.validation fs) =
      ⟨400, .json (.obj [("error", .str "Error de validación"),
        ("details", .arr (fs.map fun f =>
          .obj [("field", .str f), ("message", .str (pathMessage f))]))])⟩) ∧
    (∀ e : SaveErr, (∀ fs, e ≠ SaveErr.validation fs) →
      (respuestasCatch e).status = 500) ∧
    (∀ env f, registerCatch env (SaveErr.dupKey f) =
      ⟨409, .json (.obj [("mensaje",
        .str ((if f == "usuario" then "Usuario" else "Email") ++ " ya existe"))])⟩) ∧
    (∀ env fs, (registerCatch env (SaveErr.validation fs)).status = 500) ∧
    (∀ env n msg, (registerCatch env (SaveErr.otherErr n msg)).status = 500) := by
  refine ⟨fun fs => rfl, ?_, fun env f => rfl, fun env fs => rfl,
    fun env n msg => rfl⟩
  intro e he
  cases e with
  | validation fs => exact absurd rfl (he fs)
  | dupKey f => rfl
  | otherErr n m => rfl

/-- Witness for the amended C5: a duplicate-key error caught by the
submit handler is answered 500 (not 409). -/
theorem catch_mapping_per_handler_witness :
    (respuestasCatch (SaveErr.dupKey "nombre")).status = 500 :=
  catch_mapping_per_handler.2.1 (SaveErr.dupKey "nombre")
    (fun _ h => SaveErr.noConfusion h)

/-- C6 (code bug): the global error middleware writes the raw internal
`err.message` into its 500 body unconditionally — it never consults
`NODE_ENV`, so in production mode the raw message is leaked (the source
marks this "Temporalmente ... para debugging"); the submit handler's own
500 also carries `err.message` in every mode.  Both contradict the
claimed "raw message included iff non-production". -/
theorem error_detail_leaked_regardless_of_mode :
    globalErrorHandler
        ⟨"MongoServerError", "connect ECONNREFUSED 10.0.0.5:27017"⟩
        "/api/respuestas" 1700000000000 =
      ⟨500, .json (.obj [("error", .str "Error interno del servidor"),
        ("details", .str "connect ECONNREFUSED 10.0.0.5:27017"),
        ("timestamp", .str (isoString 1700000000000)),
        ("path", .str "/api/respuestas")])⟩ ∧
    respuestasCatch (SaveErr.otherErr "MongoNetworkError" "connection timed out") =
      ⟨500, .json (.obj [("error", .str "Error al guardar la respuesta"),
        ("details", .str "connection timed out"),
        ("errorName", .str "MongoNetworkError")])⟩ :=
  ⟨rfl, rfl⟩

/-- C7: deleting all surveys empties the collection and answers 200 with
the deleted count; immediately afterwards the list endpoint returns the
empty array and the statistics endpoint reports total 0. -/
theorem delete_all_then_list_empty (st : ServerState) (now : Int) :
    deleteAllRespuestas st =
      (⟨200, .json (.obj [("mensaje", .str (toString st.surveys.length ++
        " respuestas eliminadas correctamente"))])⟩,
       { st with surveys := [] }) ∧
    getRespuestas (deleteAllRespuestas st).2 = ⟨200, .json (.arr [])⟩ ∧
    getEstadisticas (deleteAllRespuestas st).2 now =
      ⟨200, .json (.obj [("total", .num 0), ("ultimaSemana", .num 0),
        ("timestamp", .str (isoString now))])⟩ :=
  ⟨rfl, rfl, rfl⟩

/-- C8: the statistics response is always 200 with the total, the
trailing-window count and a timestamp; the window counts exactly the
records with `createdAt ≥ now − 7·24·60·60·1000` ms, so a record exactly
7×24h old is counted and one strictly older is not. -/
theorem stats_seven_day_window (st : ServerState) (now : Int) :
    getEstadisticas st now =
      ⟨200, .json (.obj [
        ("total", .num st.surveys.length),
        ("ultimaSemana", .num
          (st.surveys.filter (fun r => now - sevenDaysMs ≤ r.createdAt)).length),
        ("timestamp", .str (isoString now))])⟩ ∧
    sevenDaysMs = 7 * 24 * 60 * 60 * 1000 ∧
    (∀ r ∈ st.surveys, r.createdAt = now - sevenDaysMs →
      r ∈ st.surveys.filter (fun r => now - sevenDaysMs ≤ r.createdAt)) ∧
    (∀ r : SurveyRecord, r.createdAt < now - sevenDaysMs →
      r ∉ st.surveys.filter (fun r => now - sevenDaysMs ≤ r.createdAt)) := by
  refine ⟨rfl, rfl, ?_, ?_⟩
  · intro r hr heq
    rw [List.mem_filter]
    exact ⟨hr, by rw [heq]; exact decide_eq_true le_rfl⟩
  · intro r hlt hmem
    rw [List.mem_filter] at hmem
    have := of_decide_eq_true hmem.2
    omega

/-- Witness for C8 on a concrete store at clock `2·604800000`: the record
created exactly 7×24h earlier is in the window, the record one
millisecond older is not. -/
theorem stats_seven_day_window_witness :
    sampleSurvey 0 604800000 ∈
      (List.filter (fun r => 1209600000 - sevenDaysMs ≤ r.createdAt)
        [sampleSurvey 0 604800000, sampleSurvey 1 0, sampleSurvey 2 604799999]) ∧
    sampleSurvey 2 604799999 ∉
      (List.filter (fun r => 1209600000 - sevenDaysMs ≤ r.createdAt)
        [sampleSurvey 0 604800000, sampleSurvey 1 0, sampleSurvey 2 604799999]) :=
  ⟨(stats_seven_day_window
      ⟨[sampleSurvey 0 604800000, sampleSurvey 1 0, sampleSurvey 2 604799999],
        [], 3⟩ 1209600000).2.2.1 (sampleSurvey 0 604800000) (by simp) (by decide),
   (stats_seven_day_window
      ⟨[sampleSurvey 0 604800000, sampleSurvey 1 0, sampleSurvey 2 604799999],
        [], 3⟩ 1209600000).2.2.2 (sampleSurvey 2 604799999) (by decide)⟩

/-- The schema validator never reads the body's `createdAt`/`updatedAt`
fields. -/
theorem surveyInvalidFields_timestamps (b : SurveyBody) (v w : JSVal) :
    surveyInvalidFields { b with createdAt := v, updatedAt := w } =
      surveyInvalidFields b := rfl

/-- The persisted document never takes its fields from the body's
`createdAt`/`updatedAt`. -/
theorem buildSurvey_timestamps (b : SurveyBody) (id : Nat) (now : Int)
    (v w : JSVal) :
    buildSurvey { b with createdAt := v, updatedAt := w } id now =
      buildSurvey b id now := rfl

/-- The save outcome is independent of the body's
`createdAt`/`updatedAt`. -/
theorem saveSurvey_timestamps (b : SurveyBody) (id : Nat) (now : Int)
    (v w : JSVal) :
    saveSurvey { b with createdAt := v, updatedAt := w } id now =
      saveSurvey b id now := by
  unfold saveSurvey
  rw [surveyInvalidFields_timestamps, buildSurvey_timestamps]

/-- C9: the stored timestamps are assigned by the persistence layer at
save time (spec-modelled `timestamps: true`): the submit outcome is
independent of any `createdAt`/`updatedAt` the client places in the
body, and every persisted record carries the server clock in both
fields. -/
theorem timestamps_not_client_controlled (st : ServerState) (b : SurveyBody)
    (now : Int) (v1 v2 w1 w2 : JSVal) :
    postRespuestas st { b with createdAt := v1, updatedAt := v2 } now =
      postRespuestas st { b with createdAt := w1, updatedAt := w2 } now ∧
    (∀ r, saveSurvey b st.nextId now = .ok r →
      r.createdAt = now ∧ r.updatedAt = now) := by
  constructor
  · unfold postRespuestas
    rw [saveSurvey_timestamps b st.nextId now v1 v2,
      saveSurvey_timestamps b st.nextId now w1 w2]
  · intro r h
    unfold saveSurvey at h
    split at h
    · cases h
      exact ⟨rfl, rfl⟩
    · simp at h

/-- Witness for C9: the persisted record for a concrete valid body saved
at clock 5 carries 5 in both timestamp fields, whatever the body said. -/
theorem timestamps_not_client_controlled_witness :
    (buildSurvey sampleBody 0 5).createdAt = 5 ∧
    (buildSurvey sampleBody 0 5).updatedAt = 5 :=
  (timestamps_not_client_controlled emptyState sampleBody 5
    (JSVal.vStr "1999-01-01T00:00:00.000Z") JSVal.vNull
    JSVal.vUndefined (JSVal.vNum 0)).2 (buildSurvey sampleBody 0 5) rfl

end SurveyServer
